import Mathlib

/-
Verification of the romiyal-survey classification service.

The development shallowly embeds the two Python modules of the repository:
  * ai_classifier_service.py — pydantic data models, the Gemini payload
    builder, the response-schema compiler and the classification client.
  * app.py — the Flask /classify endpoint, the in-memory response history
    and the administrative clear operation.

Modelling conventions:
  * Python objects produced by json.loads are modelled by the inductive
    type `Json` below; Python dicts are association lists.
  * Python exceptions are modelled by the inductive `PyExc`; a function
    that can raise returns `Except PyExc α`.
  * The single outbound HTTP call (requests.post) is the only side effect
    of the service; its outcome is passed in explicitly as a `NetOutcome`
    value, so the service becomes a pure function of its inputs and of
    the provider's behaviour.
  * The process-global mutable state of app.py (user_responses,
    current_question) is modelled by explicit state passing (`AppState`).
-/

/-- Values of the Python data model produced by `json.loads`: None, bool,
numbers (int and float collapsed into `Rat`), str, list and dict
(association list, in insertion order). -/
inductive Json where
  | null : Json
  | bool (b : Bool) : Json
  | num (q : Rat) : Json
  | str (s : String) : Json
  | arr (xs : List Json) : Json
  | obj (fields : List (String × Json)) : Json

/-- The double-quote character, written via `Char.ofNat` so that the file
contains no quote character literal. -/
def quoteChar : Char := Char.ofNat 34

/-- The backslash character. -/
def backslashChar : Char := Char.ofNat 92

/-- The opening curly brace character. -/
def lbraceChar : Char := Char.ofNat 123

/-- The closing curly brace character. -/
def rbraceChar : Char := Char.ofNat 125

/-- Python dict lookup. Later bindings shadow earlier ones, matching both
dict construction order and json.loads duplicate-key behaviour (last key
wins). -/
def dictGet (fields : List (String × Json)) (k : String) : Option Json :=
  fields.foldl (fun acc kv => if kv.1 = k then some kv.2 else acc) none

/-- Decimal digit test on a character. -/
def isDigitChar (c : Char) : Bool := 48 ≤ c.toNat ∧ c.toNat ≤ 57

/-- Split a leading run of decimal digits off a character list, returning
the digit values and the remainder. -/
def takeDigits : List Char → List Nat × List Char
  | [] => ([], [])
  | c :: rest =>
    if isDigitChar c then
      let (ds, r) := takeDigits rest
      ((c.toNat - 48) :: ds, r)
    else ([], c :: rest)

/-- Interpret a big-endian list of digit values as a natural number. -/
def digitsToNat (ds : List Nat) : Nat := ds.foldl (fun a d => a * 10 + d) 0

/-- The rational value of a decimal literal: sign, integer digits,
fraction digits, exponent sign and exponent digits. Computed with
natural-number arithmetic and one `mkRat` so that it reduces inside the
kernel. -/
def ratOfDecimal (neg : Bool) (intDs fracDs : List Nat) (expNeg : Bool)
    (expDs : List Nat) : Rat :=
  let f := fracDs.length
  let e := digitsToNat expDs
  let baseNum : Nat := digitsToNat intDs * 10 ^ f + digitsToNat fracDs
  let num : Nat := if expNeg then baseNum else baseNum * 10 ^ e
  let den : Nat := if expNeg then 10 ^ f * 10 ^ e else 10 ^ f
  let signedNum : Int := if neg then -(num : Int) else (num : Int)
  mkRat signedNum den

/-- Skip the whitespace characters Python's float() strips (space, tab,
newline, carriage return, vertical tab, form feed). -/
def skipSpaces : List Char → List Char
  | [] => []
  | c :: rest =>
    if c.toNat = 32 ∨ c.toNat = 9 ∨ c.toNat = 10 ∨ c.toNat = 13 ∨ c.toNat = 11 ∨ c.toNat = 12 then
      skipSpaces rest
    else c :: rest

/-- Parse an exponent part after the letter e/E: optional sign then at
least one digit. Returns (negative?, digits, rest). -/
def parseExpTail (cs : List Char) : Option (Bool × List Nat × List Char) :=
  match cs with
  | [] => none
  | c :: rest =>
    let (expNeg, rest2) :=
      if c.toNat = 43 then (false, rest)
      else if c.toNat = 45 then (true, rest)
      else (false, c :: rest)
    match takeDigits rest2 with
    | ([], _) => none
    | (ds, r) => some (expNeg, ds, r)

/-- Parse the body of a Python float literal (after an optional sign):
digits with optional fraction, or a leading dot with digits, then an
optional exponent. Returns the value and the remainder. -/
def parseFloatAfterSign (neg : Bool) (cs : List Char) : Option (Rat × List Char) :=
  let (intDs, cs2) := takeDigits cs
  match cs2 with
  | [] => if intDs = [] then none else some (ratOfDecimal neg intDs [] false [], [])
  | c :: rest =>
    if c.toNat = 46 then
      let (fracDs, cs3) := takeDigits rest
      if intDs = [] ∧ fracDs = [] then none
      else
        match cs3 with
        | [] => some (ratOfDecimal neg intDs fracDs false [], [])
        | e :: rest2 =>
          if e.toNat = 101 ∨ e.toNat = 69 then
            (parseExpTail rest2).map (fun t => (ratOfDecimal neg intDs fracDs t.1 t.2.1, t.2.2))
          else some (ratOfDecimal neg intDs fracDs false [], e :: rest2)
    else if c.toNat = 101 ∨ c.toNat = 69 then
      if intDs = [] then none
      else (parseExpTail rest).map (fun t => (ratOfDecimal neg intDs [] t.1 t.2.1, t.2.2))
    else if intDs = [] then none
    else some (ratOfDecimal neg intDs [] false [], c :: rest)

/-- Model of the numeric-string coercion pydantic v2 applies, in its
default lax mode, to a value bound for a `float` field: the Python float
literal syntax (optional surrounding whitespace, optional sign, digits
with optional fraction and exponent). The infinity/nan spellings are
mapped to failure; the real code parses them but then always rejects the
value against the [0,1] bounds of `confidenceScore`, so accept/reject
behaviour is unchanged wherever this model is used. -/
def parsePyFloat (s : String) : Option Rat :=
  let cs := skipSpaces s.data
  let (neg, cs1) :=
    match cs with
    | c :: rest =>
      if c.toNat = 45 then (true, rest)
      else if c.toNat = 43 then (false, rest)
      else (false, c :: rest)
    | [] => (false, [])
  match parseFloatAfterSign neg cs1 with
  | none => none
  | some (q, rest) => if skipSpaces rest = [] then some q else none

/-- Hexadecimal digit value of a character. -/
def hexVal (c : Char) : Option Nat :=
  if 48 ≤ c.toNat ∧ c.toNat ≤ 57 then some (c.toNat - 48)
  else if 97 ≤ c.toNat ∧ c.toNat ≤ 102 then some (c.toNat - 87)
  else if 65 ≤ c.toNat ∧ c.toNat ≤ 70 then some (c.toNat - 55)
  else none

/-- Value of four hexadecimal digits. -/
def hex4 (h1 h2 h3 h4 : Char) : Option Nat :=
  match hexVal h1, hexVal h2, hexVal h3, hexVal h4 with
  | some a, some b, some c, some d => some (a * 4096 + b * 256 + c * 16 + d)
  | _, _, _, _ => none

/-- Parse the body of a JSON string after the opening quote, handling the
escape sequences json.loads accepts, including surrogate-pair \uXXXX
escapes. Returns the decoded characters and the input remaining after the
closing quote. Raw control characters are rejected as in strict-mode
json.loads. Lone surrogate escapes, which CPython tolerates but which are
not representable as Lean `Char` scalar values, are rejected; no claim
exercises them. -/
def parseStringBody : List Char → Option (List Char × List Char)
  | [] => none
  | c :: rest =>
    if c = quoteChar then some ([], rest)
    else if c = backslashChar then
      match rest with
      | [] => none
      | e :: rest2 =>
        if e = quoteChar ∨ e = backslashChar ∨ e.toNat = 47 then
          (parseStringBody rest2).map (fun pr => (e :: pr.1, pr.2))
        else if e.toNat = 98 then
          (parseStringBody rest2).map (fun pr => (Char.ofNat 8 :: pr.1, pr.2))
        else if e.toNat = 102 then
          (parseStringBody rest2).map (fun pr => (Char.ofNat 12 :: pr.1, pr.2))
        else if e.toNat = 110 then
          (parseStringBody rest2).map (fun pr => (Char.ofNat 10 :: pr.1, pr.2))
        else if e.toNat = 114 then
          (parseStringBody rest2).map (fun pr => (Char.ofNat 13 :: pr.1, pr.2))
        else if e.toNat = 116 then
          (parseStringBody rest2).map (fun pr => (Char.ofNat 9 :: pr.1, pr.2))
        else if e.toNat = 117 then
          match rest2 with
          | h1 :: h2 :: h3 :: h4 :: rest3 =>
            match hex4 h1 h2 h3 h4 with
            | none => none
            | some n =>
              if 55296 ≤ n ∧ n ≤ 56319 then
                match rest3 with
                | b1 :: u1 :: g1 :: g2 :: g3 :: g4 :: rest4 =>
                  if b1 = backslashChar ∧ u1.toNat = 117 then
                    match hex4 g1 g2 g3 g4 with
                    | none => none
                    | some m =>
                      if 56320 ≤ m ∧ m ≤ 57343 then
                        (parseStringBody rest4).map
                          (fun pr => (Char.ofNat (65536 + (n - 55296) * 1024 + (m - 56320)) :: pr.1, pr.2))
                      else none
                  else none
                | _ => none
              else if 56320 ≤ n ∧ n ≤ 57343 then none
              else (parseStringBody rest3).map (fun pr => (Char.ofNat n :: pr.1, pr.2))
          | _ => none
        else none
    else if c.toNat < 32 then none
    else (parseStringBody rest).map (fun pr => (c :: pr.1, pr.2))

/-- Skip JSON whitespace (space, tab, newline, carriage return). -/
def skipWsJson : List Char → List Char
  | [] => []
  | c :: rest =>
    if c.toNat = 32 ∨ c.toNat = 9 ∨ c.toNat = 10 ∨ c.toNat = 13 then skipWsJson rest
    else c :: rest

/-- Parse a JSON number (strict grammar: optional minus, no leading
zeros, optional fraction with at least one digit, optional exponent). -/
def parseJsonNumber (cs : List Char) : Option (Rat × List Char) :=
  let (neg, cs1) :=
    match cs with
    | c :: rest => if c.toNat = 45 then (true, rest) else (false, c :: rest)
    | [] => (false, [])
  match takeDigits cs1 with
  | ([], _) => none
  | (intDs, cs2) =>
    if intDs.length > 1 ∧ intDs.headD 1 = 0 then none
    else
      match cs2 with
      | [] => some (ratOfDecimal neg intDs [] false [], [])
      | c :: rest =>
        if c.toNat = 46 then
          match takeDigits rest with
          | ([], _) => none
          | (fracDs, cs3) =>
            match cs3 with
            | [] => some (ratOfDecimal neg intDs fracDs false [], [])
            | e :: rest2 =>
              if e.toNat = 101 ∨ e.toNat = 69 then
                (parseExpTail rest2).map (fun t => (ratOfDecimal neg intDs fracDs t.1 t.2.1, t.2.2))
              else some (ratOfDecimal neg intDs fracDs false [], e :: rest2)
        else if c.toNat = 101 ∨ c.toNat = 69 then
          (parseExpTail rest).map (fun t => (ratOfDecimal neg intDs [] t.1 t.2.1, t.2.2))
        else some (ratOfDecimal neg intDs [] false [], c :: rest)

mutual

/-- Fuel-indexed recursive-descent parser for a JSON value, modelling
`json.loads`. Fuel strictly exceeds the remaining input length at each
call, so `json_loads` below always supplies enough. -/
def parseJsonValue : Nat → List Char → Option (Json × List Char)
  | 0, _ => none
  | Nat.succ fuel, cs =>
    match skipWsJson cs with
    | [] => none
    | c :: rest =>
      if c = quoteChar then
        (parseStringBody rest).map (fun pr => (Json.str (String.mk pr.1), pr.2))
      else if c = lbraceChar then
        match skipWsJson rest with
        | [] => none
        | d :: rest2 =>
          if d = rbraceChar then some (Json.obj [], rest2)
          else parseJsonMembers fuel (d :: rest2) []
      else if c.toNat = 91 then
        match skipWsJson rest with
        | [] => none
        | d :: rest2 =>
          if d.toNat = 93 then some (Json.arr [], rest2)
          else parseJsonItems fuel (d :: rest2) []
      else if c.toNat = 116 then
        match rest with
        | r :: u :: e :: tl =>
          if r.toNat = 114 ∧ u.toNat = 117 ∧ e.toNat = 101 then some (Json.bool true, tl) else none
        | _ => none
      else if c.toNat = 102 then
        match rest with
        | a :: l :: s :: e :: tl =>
          if a.toNat = 97 ∧ l.toNat = 108 ∧ s.toNat = 115 ∧ e.toNat = 101 then
            some (Json.bool false, tl)
          else none
        | _ => none
      else if c.toNat = 110 then
        match rest with
        | u :: l1 :: l2 :: tl =>
          if u.toNat = 117 ∧ l1.toNat = 108 ∧ l2.toNat = 108 then some (Json.null, tl) else none
        | _ => none
      else (parseJsonNumber (c :: rest)).map (fun pr => (Json.num pr.1, pr.2))

/-- Parse the members of a JSON object after the opening brace (first
member not yet consumed). -/
def parseJsonMembers : Nat → List Char → List (String × Json) → Option (Json × List Char)
  | 0, _, _ => none
  | Nat.succ fuel, cs, acc =>
    match skipWsJson cs with
    | [] => none
    | c :: rest =>
      if c = quoteChar then
        match parseStringBody rest with
        | none => none
        | some (key, rest2) =>
          match skipWsJson rest2 with
          | [] => none
          | d :: rest3 =>
            if d.toNat = 58 then
              match parseJsonValue fuel rest3 with
              | none => none
              | some (v, rest4) =>
                match skipWsJson rest4 with
                | [] => none
                | e :: rest5 =>
                  if e.toNat = 44 then
                    parseJsonMembers fuel rest5 (acc ++ [(String.mk key, v)])
                  else if e = rbraceChar then
                    some (Json.obj (acc ++ [(String.mk key, v)]), rest5)
                  else none
            else none
      else none

/-- Parse the items of a JSON array after the opening bracket (first item
not yet consumed). -/
def parseJsonItems : Nat → List Char → List Json → Option (Json × List Char)
  | 0, _, _ => none
  | Nat.succ fuel, cs, acc =>
    match parseJsonValue fuel cs with
    | none => none
    | some (v, rest) =>
      match skipWsJson rest with
      | [] => none
      | e :: rest2 =>
        if e.toNat = 44 then parseJsonItems fuel rest2 (acc ++ [v])
        else if e.toNat = 93 then some (Json.arr (acc ++ [v]), rest2)
        else none

end

/-- Model of `json.loads`: parse one JSON value and require that only
whitespace remains. -/
def json_loads (s : String) : Option Json :=
  match parseJsonValue (s.length + 1) s.data with
  | some (v, rest) => if skipWsJson rest = [] then some v else none
  | none => none

/-- Python exceptions relevant to the two modules, each carrying its
message. `jsonDecodeError` is json.JSONDecodeError (a ValueError
subclass), `requestException` covers requests.exceptions.RequestException
and its subclasses, `validationError` is pydantic.ValidationError. -/
inductive PyExc where
  | valueError (msg : String)
  | jsonDecodeError (msg : String)
  | validationError (msg : String)
  | requestException (msg : String)
  | runtimeError (msg : String)
  | indexError (msg : String)
  | typeError (msg : String)
  | attributeError (msg : String)
deriving Repr, DecidableEq

/-- ai_classifier_service.py lines 17-24: the pydantic result model.
`confidenceScore: float` is modelled as `Rat` (the values reachable from
JSON text are finite decimals). -/
structure ClassificationResult where
  primaryDomain : String
  confidenceScore : Rat
  justification : String
deriving Repr, DecidableEq

/-- Pydantic v2 lax-mode validation of a value bound for the
`confidenceScore: float` field: numbers pass through, numeric strings
are coerced via the float-literal syntax, booleans and every other shape
are rejected ("Input should be a valid number"). -/
def csValue : Json → Except String Rat
  | .num q => .ok q
  | .str s =>
    match parsePyFloat s with
    | some q => .ok q
    | none => .error "confidenceScore: unable to parse string as a number"
  | _ => .error "confidenceScore: Input should be a valid number"

/-- Pydantic v2 validation of `ClassificationResult(**model_output_data)`
(ai_classifier_service.py line 135) on a dict parsed from JSON: all three
fields required, `primaryDomain`/`justification` must be strings (lax
mode does not coerce numbers to str), `confidenceScore` per `csValue`
with the `ge=0.0, le=1.0` bounds checked, not clamped. Pydantic collects
all field errors into one ValidationError; this sequential model agrees
with it on acceptance, rejection, and the accepted value, differing only
in which error message is reported first. Extra fields are ignored, as by
pydantic's default config. -/
def validate_ClassificationResult (fields : List (String × Json)) :
    Except String ClassificationResult :=
  match dictGet fields "primaryDomain" with
  | none => .error "primaryDomain: Field required"
  | some pdv =>
    match pdv with
    | .str pd =>
      match dictGet fields "confidenceScore" with
      | none => .error "confidenceScore: Field required"
      | some csv =>
        match csValue csv with
        | .error m => .error m
        | .ok cs =>
          if cs < 0 then .error "confidenceScore: Input should be greater than or equal to 0"
          else if 1 < cs then .error "confidenceScore: Input should be less than or equal to 1"
          else
            match dictGet fields "justification" with
            | none => .error "justification: Field required"
            | some (.str j) => .ok { primaryDomain := pd, confidenceScore := cs, justification := j }
            | some _ => .error "justification: Input should be a valid string"
    | _ => .error "primaryDomain: Input should be a valid string"

/-- ASCII upper-casing as applied by Python's str.upper() to the
all-ASCII type names appearing in the schema. -/
def pyStrUpper (s : String) : String :=
  String.mk (s.data.map (fun c =>
    if 97 ≤ c.toNat ∧ c.toNat ≤ 122 then Char.ofNat (c.toNat - 32) else c))

/-- The parts of the dict returned by get_response_schema
(ai_classifier_service.py lines 42-53) that the spec constrains: the
object type tag, the ordered property list with each property's type tag,
the required-field list, and propertyOrdering. The title/description
strings and the numeric bounds carried alongside are invariant baggage
and are omitted. -/
structure ResponseSchema where
  type : String
  properties : List (String × String)
  required : List String
  propertyOrdering : List String
deriving Repr, DecidableEq

/-- ClassificationResult.model_json_schema(): property names with their
JSON-schema primitive type tags, in pydantic declaration order
(ai_classifier_service.py lines 17-24). -/
def classification_result_schema_properties : List (String × String) :=
  [("primaryDomain", "string"), ("confidenceScore", "number"), ("justification", "string")]

/-- The required list emitted by model_json_schema(): all three fields. -/
def classification_result_schema_required : List String :=
  ["primaryDomain", "confidenceScore", "justification"]

/-- ai_classifier_service.py lines 42-53: upper-case the type tags and
append propertyOrdering listing the property keys in order. Pure and
total: no input, no I/O, a single constant value. -/
def get_response_schema : ResponseSchema :=
  let props := classification_result_schema_properties.map (fun p => (p.1, pyStrUpper p.2))
  { type := pyStrUpper "object"
  , properties := props
  , required := classification_result_schema_required
  , propertyOrdering := props.map Prod.fst }

/-- ai_classifier_service.py lines 13-15: `ClassificationRequest` has the
single required field `answer: str`. Pydantic validates only that the
value is a string: there is no min_length constraint, so the empty string
is accepted. -/
def validate_ClassificationRequest (answer : Json) : Except String String :=
  match answer with
  | .str s => .ok s
  | _ => .error "answer: Input should be a valid string"

/-- ai_classifier_service.py lines 28-37, verbatim (apostrophes written
as escapes). -/
def BASE_SYSTEM_PROMPT : String :=
  "\nYou are an intelligent engine for real-time survey analysis. Carefully read and interpret each user response, then assign it to the most appropriate category based on the survey question and existing categories.\n\n**Instructions:**\n1. Evaluate the user\x27s answer in the context of the survey question.\n2. First, check if the answer reasonably fits any of the **Existing Categories** (semantic meaning counts, not just exact wording). \n3. If it fits an existing category, set `primaryDomain` to that exact category name. Always prefer existing categories over creating new ones.\n4. Only if the answer does not reasonably fit any existing category, create a new, concise category name (distinct from the user\x27s answer) and assign it to `primaryDomain`.\n5. Always follow the provided JSON schema strictly in your output.\n"

/-- The dict handed to json.dumps to form user_prompt
(ai_classifier_service.py lines 77-81). json.dumps/json.loads serialize
and re-read this fragment of values faithfully, so the context block is
modelled at the value level: the payload carries this `Json` value in
place of its dumped text. -/
def context_block (objective question : String) (existing_categories : List String) : Json :=
  .obj [ ("user_answer", .str objective)
       , ("question", .str question)
       , ("existing_categories", .arr (existing_categories.map Json.str)) ]

/-- The payload dict built at ai_classifier_service.py lines 84-95:
contents[0].parts[0].text (the user prompt, as a context-block value),
systemInstruction.parts[0].text, and generationConfig. -/
structure GeminiPayload where
  user_prompt : Json
  system_instruction : String
  responseMimeType : String
  responseSchema : ResponseSchema

/-- The pydantic ValidationError message is logged and replaced by
ValueError("Invalid objective format.") — ai_classifier_service.py
lines 70-74. -/
def MSG_INVALID : String := "Invalid objective format."

/-- Message prefix of the CommunicationError surface
(ai_classifier_service.py line 146). -/
def MSG_COMM : String := "Failed to communicate with the AI service: "

/-- Message raised for an empty model output
(ai_classifier_service.py line 130). -/
def MSG_EMPTY : String := "AI model did not return valid classification content."

/-- Message raised when pydantic rejects the model output
(ai_classifier_service.py line 143). -/
def MSG_SCHEMA : String := "AI output failed schema validation."

/-- get_gemini_api_payload (ai_classifier_service.py lines 57-97):
validate the answer through ClassificationRequest — ValidationError is
converted to ValueError — then build the payload. -/
def get_gemini_api_payload (objective : Json) (question : String)
    (existing_categories : List String) : Except PyExc GeminiPayload :=
  match validate_ClassificationRequest objective with
  | .error _ => .error (.valueError MSG_INVALID)
  | .ok answer =>
    .ok { user_prompt := context_block answer question existing_categories
        , system_instruction := BASE_SYSTEM_PROMPT
        , responseMimeType := "application/json"
        , responseSchema := get_response_schema }

/-- Outcome of the one outbound HTTP call (requests.post at
ai_classifier_service.py line 122), supplied as an input: either the
request raised a RequestException carrying some detail text, or a
response came back with a status code and a body (`none` when the body
is not decodable JSON, in which case response.json() raises
requests.exceptions.JSONDecodeError, a RequestException subclass). -/
inductive NetOutcome where
  | exc (detail : String)
  | response (status : Nat) (body : Option Json)

/-- Detail text of the HTTPError that raise_for_status raises for a 4xx
or 5xx status; stands in for the "<status> Client Error ..." text of
requests, whose exact wording the code only interpolates. -/
def http_error_detail (status : Nat) : String := toString status ++ " Error"

/-- Python truthiness of a json.loads value, for `if not json_string`
(ai_classifier_service.py line 129). -/
def jsonFalsy : Json → Bool
  | .null => true
  | .bool b => !b
  | .num q => q == 0
  | .str s => s == ""
  | .arr xs => xs.isEmpty
  | .obj fs => fs.isEmpty

/-- Python `==` between a json.loads value and a string literal: true
only for an equal str (line 129, `json_string == '{}'`). -/
def jsonEqStr (j : Json) (s : String) : Bool :=
  match j with
  | .str t => t == s
  | _ => false

/-- Python `x.get(k, default)`: dict lookup with default; any non-dict
receiver raises AttributeError. -/
def pyDictGetD (j : Json) (k : String) (dflt : Json) : Except PyExc Json :=
  match j with
  | .obj fields => .ok ((dictGet fields k).getD dflt)
  | _ => .error (.attributeError "object has no attribute get")

/-- Python `x[0]`: first element of a list (IndexError when empty),
first character of a str, TypeError otherwise. -/
def pyIndexZero (j : Json) : Except PyExc Json :=
  match j with
  | .arr [] => .error (.indexError "list index out of range")
  | .arr (x :: _) => .ok x
  | .str s =>
    match s.data with
    | [] => .error (.indexError "string index out of range")
    | c :: _ => .ok (.str (String.mk [c]))
  | _ => .error (.typeError "object is not subscriptable")

/-- ai_classifier_service.py line 127: the extraction chain
api_response_data.get('candidates', [{}])[0].get('content', {})
.get('parts', [{}])[0].get('text', '{}'). Note that an explicitly empty
candidates list makes `[0]` raise IndexError rather than reaching the
empty-output check. -/
def extract_json_content (body : Json) : Except PyExc Json := do
  let candidates ← pyDictGetD body "candidates" (.arr [.obj []])
  let c0 ← pyIndexZero candidates
  let content ← pyDictGetD c0 "content" (.obj [])
  let parts ← pyDictGetD content "parts" (.arr [.obj []])
  let p0 ← pyIndexZero parts
  pyDictGetD p0 "text" (.str "\x7b\x7d")

/-- ai_classifier_service.py lines 132-135: json.loads the extracted
text (JSONDecodeError on malformed text), splat it into
ClassificationResult (TypeError when not a dict), and validate
(ValidationError on any contract violation). -/
def validate_model_output (json_string : String) : Except PyExc ClassificationResult :=
  match json_loads json_string with
  | none => .error (.jsonDecodeError "Expecting value")
  | some (.obj fields) =>
    match validate_ClassificationResult fields with
    | .error msg => .error (.validationError msg)
    | .ok r => .ok r
  | some _ => .error (.typeError "argument after ** must be a mapping")

/-- classify_learning_objective (ai_classifier_service.py lines 99-149).
The try body runs top to bottom; the except clauses turn
ValidationError into RuntimeError(MSG_SCHEMA), RequestException into
RuntimeError(MSG_COMM ++ detail), and re-raise everything else
unchanged. The HTTP call itself is abstracted by `net`. -/
def classify_learning_objective (objective : Json) (api_url api_key question : String)
    (existing_categories : List String) (net : NetOutcome) :
    Except PyExc ClassificationResult :=
  match get_gemini_api_payload objective question existing_categories with
  | .error e => .error e
  | .ok _payload =>
    let _full_api_url := api_url ++ "?key=" ++ api_key
    match net with
    | .exc detail => .error (.runtimeError (MSG_COMM ++ detail))
    | .response status body =>
      if 400 ≤ status ∧ status ≤ 599 then
        .error (.runtimeError (MSG_COMM ++ http_error_detail status))
      else
        match body with
        | none => .error (.runtimeError (MSG_COMM ++ "Expecting value"))
        | some data =>
          match extract_json_content data with
          | .error e => .error e
          | .ok js =>
            if jsonFalsy js || jsonEqStr js "\x7b\x7d" then
              .error (.runtimeError MSG_EMPTY)
            else
              match js with
              | .str s =>
                match validate_model_output s with
                | .ok r => .ok r
                | .error (.validationError _) => .error (.runtimeError MSG_SCHEMA)
                | .error e => .error e
              | _ => .error (.typeError "the JSON object must be str, bytes or bytearray")

/-- app.py lines 138-144: one entry of the in-memory user_responses
list. The timestamp conditional at line 143 always takes its else branch
(model_dump() of ClassificationResult never contains 'timestamp'), so
the record is stamped with the current wall-clock time, passed in as
`now`. -/
structure ResponseRecord where
  id : String
  userId : String
  answer : Json
  classification : ClassificationResult
  timestamp : Int

/-- The process-global mutable state of app.py: user_responses (line 31)
and current_question (line 32). -/
structure AppState where
  user_responses : List ResponseRecord
  current_question : String

/-- The /classify endpoint's visible outcome: a 200 with the validated
result, or an error status with the jsonify'd error text. -/
inductive HttpResp where
  | ok (result : ClassificationResult)
  | err (status : Nat) (error : String)
deriving Repr, DecidableEq

/-- app.py lines 152-165: the except clauses of classify_objective.
pydantic ValidationError gets 422, RuntimeError gets the fixed
schema-mismatch 500, and every other exception — including the
ValueError/JSONDecodeError/IndexError/TypeError paths that the service
re-raises unchanged — falls to the generic 500. -/
def app_error_response (e : PyExc) : HttpResp :=
  match e with
  | .validationError _ => .err 422 "Data validation failed"
  | .runtimeError _ => .err 500 "AI classification failed due to internal schema mismatch."
  | _ => .err 500 "An internal server error occurred."

/-- app.py line 116: `if not GEMINI_API_KEY` — unset or empty. -/
def keyMissing : Option String → Bool
  | none => true
  | some k => k == ""

/-- app.py lines 121-126: `if not data or 'answer' not in data` — the
request body is absent/not a dict, an empty dict, or lacks the key;
otherwise the answer value (of any JSON shape) is taken. -/
def answerOf (reqBody : Option (List (String × Json))) : Option Json :=
  match reqBody with
  | none => none
  | some fields => if fields.isEmpty then none else dictGet fields "answer"

/-- app.py lines 130-132: existing_categories =
sorted(list(set(primaryDomain of each response))). `sorted` over a
Python set and insertion sort over a deduplicated list both denote the
ascending enumeration of the distinct values. -/
def existing_categories_of (responses : List ResponseRecord) : List String :=
  List.insertionSort (· ≤ ·)
    ((responses.map (fun r => r.classification.primaryDomain)).dedup)

/-- app.py line 28. -/
def GEMINI_API_URL : String :=
  "https://generativelanguage.googleapis.com/v1beta/models/gemini-2.5-flash-preview-05-20:generateContent"

/-- The /classify endpoint (app.py lines 108-165) as a function of the
shared state, the configuration, the request, the session and the
network outcome; returns the HTTP outcome and the state afterwards. -/
def classify_objective (st : AppState) (gemini_api_key : Option String)
    (reqBody : Option (List (String × Json))) (session_user_id : Option String)
    (now : Int) (net : NetOutcome) : HttpResp × AppState :=
  if keyMissing gemini_api_key then
    (.err 500 "Server is not configured for AI classification.", st)
  else
    match answerOf reqBody with
    | none => (.err 400 "Missing required field \x27answer\x27", st)
    | some objective =>
      let existing_categories := existing_categories_of st.user_responses
      match classify_learning_objective objective GEMINI_API_URL
          (gemini_api_key.getD "") st.current_question existing_categories net with
      | .error e => (app_error_response e, st)
      | .ok result =>
        let new_response : ResponseRecord :=
          { id := "res-" ++ toString (st.user_responses.length + 1)
          , userId := session_user_id.getD "anonymous"
          , answer := objective
          , classification := result
          , timestamp := now }
        (.ok result, { st with user_responses := st.user_responses ++ [new_response] })

/-- handle_clear_data (app.py lines 96-103): when the session is logged
in, replace user_responses with the empty list (the question is kept and
the new state is broadcast); otherwise do nothing. The handler contains
no raising operation. -/
def handle_clear_data (logged_in : Bool) (st : AppState) : AppState :=
  if logged_in then { st with user_responses := [] } else st

/-- The four failure kinds named by the spec, plus a bucket for
everything else. -/
inductive FailureCause where
  | invalidInput
  | communication
  | emptyOutput
  | schemaViolation
  | other
deriving Repr, DecidableEq

/-- Attribution of a service-level exception to a failure kind, by
exception type and message: this is the discrimination available to a
caller of classify_learning_objective. -/
def causeOf : PyExc → FailureCause
  | .valueError m => if m = MSG_INVALID then .invalidInput else .other
  | .runtimeError m =>
    if m = MSG_EMPTY then .emptyOutput
    else if m = MSG_SCHEMA then .schemaViolation
    else .communication
  | _ => .other

/-- Decode a list of JSON strings back to the string list. -/
def decodeStrList : List Json → Option (List String)
  | [] => some []
  | .str s :: rest => (decodeStrList rest).map (fun l => s :: l)
  | _ => none

/-- Read a context block back: the parse direction of the round-trip
property, extracting user_answer, question and existing_categories. -/
def parse_context (j : Json) : Option (String × String × List String) :=
  match j with
  | .obj fields =>
    match dictGet fields "user_answer", dictGet fields "question",
        dictGet fields "existing_categories" with
    | some (.str a), some (.str q), some (.arr xs) =>
      (decodeStrList xs).map (fun cats => (a, q, cats))
    | _, _, _ => none
  | _ => none

/-- Bool check that the text extracted from a provider envelope is
exactly the given string (used to state hypotheses decidably without
equality on `Json`). -/
def extractedTextIs (body : Json) (s : String) : Bool :=
  match extract_json_content body with
  | .ok (.str t) => t == s
  | _ => false

/-- Decidable equality for Except results, used to evaluate concrete
scenarios. -/
instance {ε α : Type} [DecidableEq ε] [DecidableEq α] : DecidableEq (Except ε α) := fun a b =>
  match a, b with
  | .ok x, .ok y =>
    match decEq x y with
    | .isTrue h => .isTrue (by rw [h])
    | .isFalse h => .isFalse (fun hh => h (Except.ok.inj hh))
  | .error x, .error y =>
    match decEq x y with
    | .isTrue h => .isTrue (by rw [h])
    | .isFalse h => .isFalse (fun hh => h (Except.error.inj hh))
  | .ok _, .error _ => .isFalse (fun hh => Except.noConfusion hh)
  | .error _, .ok _ => .isFalse (fun hh => Except.noConfusion hh)

/-- Two strings differ when the first characters differ, even after
appending to the first. -/
theorem append_ne_of_head_ne (a m b : String) (c d : Char)
    (ha : a.data.head? = some c) (hb : b.data.head? = some d) (hcd : c ≠ d) :
    a ++ m ≠ b := by
  intro h
  have hd : (a ++ m).data.head? = b.data.head? := by rw [h]
  rw [String.data_append] at hd
  cases hal : a.data with
  | nil => rw [hal] at ha; exact Option.noConfusion ha
  | cons x xs =>
    rw [hal] at ha hd
    simp only [List.cons_append, List.head?_cons] at ha hd
    rw [hb] at hd
    exact hcd ((Option.some.inj ha).symm.trans (Option.some.inj hd))

/-- Mapping Json.str over a string list decodes back to the list. -/
theorem decodeStrList_map_str (cats : List String) :
    decodeStrList (cats.map Json.str) = some cats := by
  induction cats with
  | nil => rfl
  | cons c cs ih => simp [decodeStrList, ih]

/-- A successful Bool text-extraction check means the extraction chain
returned exactly that string. -/
theorem extractedTextIs_spec (body : Json) (s : String)
    (h : extractedTextIs body s = true) :
    extract_json_content body = Except.ok (Json.str s) := by
  unfold extractedTextIs at h
  cases hext : extract_json_content body with
  | error e => rw [hext] at h; simp at h
  | ok js =>
    rw [hext] at h
    cases js <;> simp_all

/-- C5. The Schema Compiler (get_response_schema) is a constant of the
program — pure, total and deterministic by construction — whose value
has exactly the three properties primaryDomain, confidenceScore,
justification in declaration order, each with an upper-cased primitive
type tag, and a propertyOrdering equal to that same three-name order. -/
theorem C5_schema_compiler_shape :
    get_response_schema =
      { type := "OBJECT"
      , properties := [("primaryDomain", "STRING"), ("confidenceScore", "NUMBER"),
          ("justification", "STRING")]
      , required := ["primaryDomain", "confidenceScore", "justification"]
      , propertyOrdering := ["primaryDomain", "confidenceScore", "justification"] } ∧
    get_response_schema.propertyOrdering = get_response_schema.properties.map Prod.fst := by
  decide

/-- C8. The administrative reset is idempotent and total: from any
starting history, one logged-in clear empties the history, an immediate
second clear leaves it empty, and (the embedding being a total function
with no raising operation) neither invocation produces an error. -/
theorem C8_clear_idempotent (st : AppState) (logged_in : Bool) (h : logged_in = true) :
    (handle_clear_data logged_in st).user_responses = [] ∧
    (handle_clear_data logged_in (handle_clear_data logged_in st)).user_responses = [] := by
  subst h
  simp [handle_clear_data]

/-- Sample state with a non-empty history for the C8 witness. -/
def sampleClearState : AppState :=
  { user_responses :=
      [{ id := "res-1", userId := "anonymous", answer := Json.str "a"
       , classification := { primaryDomain := "Oncology", confidenceScore := mkRat 9 10
                           , justification := "j" }
       , timestamp := 0 }]
  , current_question := "Q" }

theorem C8_clear_idempotent_witness :
    (handle_clear_data true sampleClearState).user_responses = [] ∧
    (handle_clear_data true (handle_clear_data true sampleClearState)).user_responses = [] :=
  C8_clear_idempotent sampleClearState true rfl

/-- C10. The existing-categories list handed to the Prompt Builder is,
for every history, free of repeated names, strictly ascending in the
lexicographic string order, and contains exactly the primaryDomain
values of the records in history. -/
theorem C10_existing_categories_sorted_nodup (responses : List ResponseRecord) :
    (existing_categories_of responses).Sorted (· < ·) ∧
    (existing_categories_of responses).Nodup ∧
    ∀ c : String, c ∈ existing_categories_of responses ↔
      c ∈ responses.map (fun r => r.classification.primaryDomain) := by
  have hnd : (existing_categories_of responses).Nodup :=
    (List.perm_insertionSort _ _).nodup_iff.mpr (List.nodup_dedup _)
  refine ⟨(List.sorted_insertionSort _ _).lt_of_le hnd, hnd, ?_⟩
  intro c
  unfold existing_categories_of
  rw [List.mem_insertionSort, List.mem_dedup]

/-- The spec's accepted example payload, as raw model-output text. -/
def CANCER_OK_JSON : String :=
  "\x7b\"primaryDomain\":\"Cancer Imaging\",\"confidenceScore\":0.87,\"justification\":\"Mentions tumor segmentation in CT scans.\"\x7d"

/-- The same payload with justification missing. -/
def CANCER_MISSING_JUSTIFICATION_JSON : String :=
  "\x7b\"primaryDomain\":\"Cancer Imaging\",\"confidenceScore\":0.87\x7d"

/-- The same payload with confidenceScore = 1.5. -/
def CANCER_SCORE_15_JSON : String :=
  "\x7b\"primaryDomain\":\"Cancer Imaging\",\"confidenceScore\":1.5,\"justification\":\"Mentions tumor segmentation in CT scans.\"\x7d"

/-- The same payload with confidenceScore given as the text high. -/
def CANCER_SCORE_TEXT_JSON : String :=
  "\x7b\"primaryDomain\":\"Cancer Imaging\",\"confidenceScore\":\"high\",\"justification\":\"Mentions tumor segmentation in CT scans.\"\x7d"

/-- C4. The Result Validator (json.loads + pydantic validation, lines
132-135) accepts the spec's example payload with exactly those field
values, rejects the payload missing justification, rejects
confidenceScore = 1.5, rejects confidenceScore given as text, and
rejects every text json.loads cannot parse. -/
theorem C4_result_validator_cases :
    validate_model_output CANCER_OK_JSON =
      Except.ok { primaryDomain := "Cancer Imaging", confidenceScore := mkRat 87 100
                , justification := "Mentions tumor segmentation in CT scans." } ∧
    (validate_model_output CANCER_MISSING_JUSTIFICATION_JSON).isOk = false ∧
    (validate_model_output CANCER_SCORE_15_JSON).isOk = false ∧
    (validate_model_output CANCER_SCORE_TEXT_JSON).isOk = false ∧
    ∀ s : String, (json_loads s).isNone = true → (validate_model_output s).isOk = false := by
  refine ⟨by decide, by decide, by decide, by decide, ?_⟩
  intro s h
  unfold validate_model_output
  cases hj : json_loads s with
  | none => rfl
  | some v => rw [hj] at h; simp at h

theorem C4_result_validator_cases_witness :
    (json_loads "this is not json").isNone = true ∧
    (validate_model_output "this is not json").isOk = false :=
  ⟨by decide, C4_result_validator_cases.2.2.2.2 "this is not json" (by decide)⟩

/-- C3 counterexample: a parsed JSON object in which the required field
confidenceScore is present with the wrong primitive type (the text 0.87
rather than a number) is NOT rejected — pydantic v2 lax mode coerces the
numeric text to the number, both at the field level and through the full
json.loads-plus-validation path. -/
theorem C3_counterexample_numeric_text_coerced :
    validate_ClassificationResult
        [("primaryDomain", Json.str "Cancer Imaging"),
         ("confidenceScore", Json.str "0.87"),
         ("justification", Json.str "ok")] =
      Except.ok { primaryDomain := "Cancer Imaging", confidenceScore := mkRat 87 100
                , justification := "ok" } ∧
    validate_model_output
        "\x7b\"primaryDomain\":\"Cancer Imaging\",\"confidenceScore\":\"0.87\",\"justification\":\"ok\"\x7d" =
      Except.ok { primaryDomain := "Cancer Imaging", confidenceScore := mkRat 87 100
                , justification := "ok" } := by
  exact ⟨by decide, by decide⟩

/-- C3 (amended). The Result Validator rejects wrong-typed values for
the text fields (a number where justification or primaryDomain expects
text, in any position), rejects non-numeric text for confidenceScore,
and never defaults a missing field; the one repair it does perform —
forced by the counterexample — is coercing a numeric text value of
confidenceScore to the number it denotes (pydantic v2 lax mode). -/
theorem C3_amended_no_repair_except_numeric_text (pd jtext s : String) (x q : Rat)
    (hps : parsePyFloat s = none) :
    (validate_ClassificationResult
        [("primaryDomain", Json.str pd), ("confidenceScore", Json.num q),
         ("justification", Json.num x)]).isOk = false ∧
    (validate_ClassificationResult
        [("primaryDomain", Json.num x), ("confidenceScore", Json.num q),
         ("justification", Json.str jtext)]).isOk = false ∧
    (validate_ClassificationResult
        [("primaryDomain", Json.str pd), ("confidenceScore", Json.str s),
         ("justification", Json.str jtext)]).isOk = false ∧
    (validate_ClassificationResult
        [("confidenceScore", Json.num q), ("justification", Json.str jtext)]).isOk = false ∧
    (validate_ClassificationResult
        [("primaryDomain", Json.str pd), ("justification", Json.str jtext)]).isOk = false ∧
    (validate_ClassificationResult
        [("primaryDomain", Json.str pd), ("confidenceScore", Json.num q)]).isOk = false ∧
    ∀ (t : String) (r : Rat), parsePyFloat t = some r → 0 ≤ r → r ≤ 1 →
      validate_ClassificationResult
          [("primaryDomain", Json.str pd), ("confidenceScore", Json.str t),
           ("justification", Json.str jtext)] =
        Except.ok { primaryDomain := pd, confidenceScore := r, justification := jtext } := by
  refine ⟨?_, by rfl, ?_, by rfl, by rfl, ?_, ?_⟩
  · show (if q < 0 then (Except.error "confidenceScore: Input should be greater than or equal to 0" : Except String ClassificationResult)
        else if 1 < q then Except.error "confidenceScore: Input should be less than or equal to 1"
        else Except.error "justification: Input should be a valid string").isOk = false
    split
    · rfl
    · split <;> rfl
  · have hcs : csValue (Json.str s) =
        Except.error "confidenceScore: unable to parse string as a number" := by
      show (match parsePyFloat s with
        | some qq => (Except.ok qq : Except String Rat)
        | none => Except.error "confidenceScore: unable to parse string as a number") = _
      rw [hps]
    show (match csValue (Json.str s) with
      | Except.error m => (Except.error m : Except String ClassificationResult)
      | Except.ok cs =>
        if cs < 0 then Except.error "confidenceScore: Input should be greater than or equal to 0"
        else if 1 < cs then Except.error "confidenceScore: Input should be less than or equal to 1"
        else Except.ok { primaryDomain := pd, confidenceScore := cs, justification := jtext }).isOk = false
    rw [hcs]
    rfl
  · show (if q < 0 then (Except.error "confidenceScore: Input should be greater than or equal to 0" : Except String ClassificationResult)
        else if 1 < q then Except.error "confidenceScore: Input should be less than or equal to 1"
        else Except.error "justification: Field required").isOk = false
    split
    · rfl
    · split <;> rfl
  · intro t r ht hr0 hr1
    have hcs : csValue (Json.str t) = Except.ok r := by
      show (match parsePyFloat t with
        | some qq => (Except.ok qq : Except String Rat)
        | none => Except.error "confidenceScore: unable to parse string as a number") = _
      rw [ht]
    show (match csValue (Json.str t) with
      | Except.error m => (Except.error m : Except String ClassificationResult)
      | Except.ok cs =>
        if cs < 0 then Except.error "confidenceScore: Input should be greater than or equal to 0"
        else if 1 < cs then Except.error "confidenceScore: Input should be less than or equal to 1"
        else Except.ok { primaryDomain := pd, confidenceScore := cs, justification := jtext }) = _
    rw [hcs]
    show (if r < 0 then (Except.error "confidenceScore: Input should be greater than or equal to 0" : Except String ClassificationResult)
        else if 1 < r then Except.error "confidenceScore: Input should be less than or equal to 1"
        else Except.ok { primaryDomain := pd, confidenceScore := r, justification := jtext }) = _
    rw [if_neg (not_lt.mpr hr0), if_neg (not_lt.mpr hr1)]

theorem C3_amended_no_repair_except_numeric_text_witness :
    parsePyFloat "high" = none ∧
    ((validate_ClassificationResult
        [("primaryDomain", Json.str "Oncology"), ("confidenceScore", Json.num (mkRat 1 2)),
         ("justification", Json.num (mkRat 3 1))]).isOk = false ∧
     (validate_ClassificationResult
        [("primaryDomain", Json.num (mkRat 3 1)), ("confidenceScore", Json.num (mkRat 1 2)),
         ("justification", Json.str "fits")]).isOk = false ∧
     (validate_ClassificationResult
        [("primaryDomain", Json.str "Oncology"), ("confidenceScore", Json.str "high"),
         ("justification", Json.str "fits")]).isOk = false ∧
     (validate_ClassificationResult
        [("confidenceScore", Json.num (mkRat 1 2)), ("justification", Json.str "fits")]).isOk = false ∧
     (validate_ClassificationResult
        [("primaryDomain", Json.str "Oncology"), ("justification", Json.str "fits")]).isOk = false ∧
     (validate_ClassificationResult
        [("primaryDomain", Json.str "Oncology"), ("confidenceScore", Json.num (mkRat 1 2))]).isOk = false ∧
     ∀ (t : String) (r : Rat), parsePyFloat t = some r → 0 ≤ r → r ≤ 1 →
       validate_ClassificationResult
           [("primaryDomain", Json.str "Oncology"), ("confidenceScore", Json.str t),
            ("justification", Json.str "fits")] =
         Except.ok { primaryDomain := "Oncology", confidenceScore := r, justification := "fits" }) :=
  ⟨by decide, C3_amended_no_repair_except_numeric_text "Oncology" "fits" "high"
      (mkRat 3 1) (mkRat 1 2) (by decide)⟩

/-- A provider envelope carrying the spec's end-to-end Oncology reply. -/
def ONCOLOGY_BODY : Json :=
  .obj [("candidates", .arr [.obj [("content", .obj [("parts", .arr [.obj [("text",
    .str "\x7b\"primaryDomain\":\"Oncology\",\"confidenceScore\":0.91,\"justification\":\"Concerns AI-assisted cancer detection.\"\x7d")]])])]])]

/-- C1 counterexample: for the empty-string answer the request is NOT
rejected — ClassificationRequest has no non-empty constraint, so
get_gemini_api_payload builds and returns a payload, and the /classify
endpoint carries the empty answer all the way to a successful
classification using the provider's reply. -/
theorem C1_counterexample_empty_answer_accepted :
    (get_gemini_api_payload (Json.str "")
        "What is your primary learning objective regarding the use of AI in medicine?"
        []).isOk = true ∧
    (classify_objective { user_responses := [], current_question := "Q" } (some "key")
        (some [("answer", Json.str "")]) none 0
        (NetOutcome.response 200 (some ONCOLOGY_BODY))).1 =
      HttpResp.ok { primaryDomain := "Oncology", confidenceScore := mkRat 91 100
                  , justification := "Concerns AI-assisted cancer detection." } := by
  exact ⟨by decide, by decide⟩

/-- C1 (amended). A request whose answer field is missing is rejected
with the 400 input-validation response before the network outcome is
even consulted (the response and state are the same for every network
outcome); but an answer that is present, of string type, is accepted
whether or not it is empty: get_gemini_api_payload builds a payload for
every string, including the empty string. -/
theorem C1_amended_missing_rejected_empty_built (st : AppState) (key : String)
    (fields : List (String × Json)) (uid : Option String) (now : Int)
    (net1 net2 : NetOutcome) (hk : key ≠ "")
    (h : dictGet fields "answer" = none) :
    classify_objective st (some key) (some fields) uid now net1 =
      (HttpResp.err 400 "Missing required field \x27answer\x27", st) ∧
    classify_objective st (some key) (some fields) uid now net1 =
      classify_objective st (some key) (some fields) uid now net2 ∧
    ∀ (s q : String) (cats : List String),
      (get_gemini_api_payload (Json.str s) q cats).isOk = true := by
  have hkey : keyMissing (some key) = false := by
    simp [keyMissing]
    exact hk
  have hans : answerOf (some fields) = none := by
    unfold answerOf
    by_cases he : fields.isEmpty <;> simp [he, h]
  refine ⟨?_, ?_, ?_⟩
  · simp [classify_objective, hkey, hans]
  · simp [classify_objective, hkey, hans]
  · intro s q cats
    rfl

theorem C1_amended_missing_rejected_empty_built_witness :
    (("k" : String) ≠ "") ∧
    dictGet [("text", Json.str "hello")] "answer" = none ∧
    (classify_objective { user_responses := [], current_question := "Q" } (some "k")
        (some [("text", Json.str "hello")]) none 0 (NetOutcome.exc "down") =
      (HttpResp.err 400 "Missing required field \x27answer\x27",
        { user_responses := [], current_question := "Q" }) ∧
     classify_objective { user_responses := [], current_question := "Q" } (some "k")
        (some [("text", Json.str "hello")]) none 0 (NetOutcome.exc "down") =
      classify_objective { user_responses := [], current_question := "Q" } (some "k")
        (some [("text", Json.str "hello")]) none 0 (NetOutcome.response 200 none) ∧
     ∀ (s q : String) (cats : List String),
       (get_gemini_api_payload (Json.str s) q cats).isOk = true) :=
  ⟨by decide, by rfl,
    C1_amended_missing_rejected_empty_built
      { user_responses := [], current_question := "Q" } "k"
      [("text", Json.str "hello")] none 0 (NetOutcome.exc "down")
      (NetOutcome.response 200 none) (by decide) (by rfl)⟩

/-- A provider envelope whose nested text field is the empty string. -/
def EMPTY_TEXT_BODY : Json :=
  .obj [("candidates", .arr [.obj [("content", .obj [("parts", .arr [.obj [("text",
    .str "")]])])]])]

/-- C2 counterexample: a transport failure and an empty model output are
two different failure causes (the service raises different exceptions,
attributed to different kinds), yet the /classify boundary maps both to
the literally identical generic 500 response — the two outcomes are
collapsed and indistinguishable to the caller. -/
theorem C2_counterexample_boundary_collapse :
    classify_learning_objective (Json.str "a") GEMINI_API_URL "k" "Q" []
        (NetOutcome.exc "Connection refused") =
      Except.error (PyExc.runtimeError (MSG_COMM ++ "Connection refused")) ∧
    classify_learning_objective (Json.str "a") GEMINI_API_URL "k" "Q" []
        (NetOutcome.response 200 (some EMPTY_TEXT_BODY)) =
      Except.error (PyExc.runtimeError MSG_EMPTY) ∧
    causeOf (PyExc.runtimeError (MSG_COMM ++ "Connection refused")) =
      FailureCause.communication ∧
    causeOf (PyExc.runtimeError MSG_EMPTY) = FailureCause.emptyOutput ∧
    (classify_objective { user_responses := [], current_question := "Q" } (some "k")
        (some [("answer", Json.str "a")]) none 0 (NetOutcome.exc "Connection refused")).1 =
      (classify_objective { user_responses := [], current_question := "Q" } (some "k")
        (some [("answer", Json.str "a")]) none 0
        (NetOutcome.response 200 (some EMPTY_TEXT_BODY))).1 := by
  exact ⟨by decide, by decide, by decide, by decide, by decide⟩

/-- C2 (amended). At the service layer the four failure causes remain
attributable — invalid input surfaces as ValueError with its fixed
message and the other three as RuntimeError with three mutually
incompatible messages, so `causeOf` recovers the cause — but the HTTP
boundary collapses communication, empty-output and schema-violation
failures into one identical 500 response (and invalid input shares the
generic 500 with other re-raised exceptions). -/
theorem C2_amended_attributable_service_collapsed_boundary (detail : String) :
    causeOf (PyExc.valueError MSG_INVALID) = FailureCause.invalidInput ∧
    causeOf (PyExc.runtimeError (MSG_COMM ++ detail)) = FailureCause.communication ∧
    causeOf (PyExc.runtimeError MSG_EMPTY) = FailureCause.emptyOutput ∧
    causeOf (PyExc.runtimeError MSG_SCHEMA) = FailureCause.schemaViolation ∧
    app_error_response (PyExc.runtimeError (MSG_COMM ++ detail)) =
      app_error_response (PyExc.runtimeError MSG_EMPTY) ∧
    app_error_response (PyExc.runtimeError MSG_EMPTY) =
      app_error_response (PyExc.runtimeError MSG_SCHEMA) ∧
    app_error_response (PyExc.valueError MSG_INVALID) =
      app_error_response (PyExc.jsonDecodeError "Expecting value") := by
  have hne1 : MSG_COMM ++ detail ≠ MSG_EMPTY :=
    append_ne_of_head_ne MSG_COMM detail MSG_EMPTY (Char.ofNat 70) (Char.ofNat 65)
      (by decide) (by decide) (by decide)
  have hne2 : MSG_COMM ++ detail ≠ MSG_SCHEMA :=
    append_ne_of_head_ne MSG_COMM detail MSG_SCHEMA (Char.ofNat 70) (Char.ofNat 65)
      (by decide) (by decide) (by decide)
  refine ⟨by decide, ?_, by decide, by decide, ?_, by decide, by decide⟩
  · show (if MSG_COMM ++ detail = MSG_EMPTY then FailureCause.emptyOutput
      else if MSG_COMM ++ detail = MSG_SCHEMA then FailureCause.schemaViolation
      else FailureCause.communication) = FailureCause.communication
    rw [if_neg hne1, if_neg hne2]
  · rfl

theorem C2_amended_attributable_service_collapsed_boundary_witness :
    causeOf (PyExc.valueError MSG_INVALID) = FailureCause.invalidInput ∧
    causeOf (PyExc.runtimeError (MSG_COMM ++ "Connection refused")) = FailureCause.communication ∧
    causeOf (PyExc.runtimeError MSG_EMPTY) = FailureCause.emptyOutput ∧
    causeOf (PyExc.runtimeError MSG_SCHEMA) = FailureCause.schemaViolation ∧
    app_error_response (PyExc.runtimeError (MSG_COMM ++ "Connection refused")) =
      app_error_response (PyExc.runtimeError MSG_EMPTY) ∧
    app_error_response (PyExc.runtimeError MSG_EMPTY) =
      app_error_response (PyExc.runtimeError MSG_SCHEMA) ∧
    app_error_response (PyExc.valueError MSG_INVALID) =
      app_error_response (PyExc.jsonDecodeError "Expecting value") :=
  C2_amended_attributable_service_collapsed_boundary "Connection refused"

/-- C6. Round-trip of the prompt context block: for every non-empty
answer, every question and every duplicate-free category list, the
payload built by get_gemini_api_payload carries a context block from
which parsing recovers exactly the answer, the question and the
category list supplied. -/
theorem C6_context_block_roundtrip (a q : String) (cats : List String)
    (ha : a ≠ "") (hnd : cats.Nodup) :
    ∃ p : GeminiPayload,
      get_gemini_api_payload (Json.str a) q cats = Except.ok p ∧
      parse_context p.user_prompt = some (a, q, cats) := by
  refine ⟨_, rfl, ?_⟩
  show ((decodeStrList (cats.map Json.str)).map (fun c => (a, q, c))) = some (a, q, cats)
  rw [decodeStrList_map_str]
  rfl

theorem C6_context_block_roundtrip_witness :
    (("I want to learn AI" : String) ≠ "") ∧
    (["Oncology", "Radiology"] : List String).Nodup ∧
    ∃ p : GeminiPayload,
      get_gemini_api_payload (Json.str "I want to learn AI") "What is your goal?"
          ["Oncology", "Radiology"] = Except.ok p ∧
      parse_context p.user_prompt =
        some ("I want to learn AI", "What is your goal?", ["Oncology", "Radiology"]) :=
  ⟨by decide, by decide,
    C6_context_block_roundtrip "I want to learn AI" "What is your goal?"
      ["Oncology", "Radiology"] (by decide) (by decide)⟩

/-- C7. The history is unchanged on every failure path: whenever the
/classify endpoint returns an error response — which covers all four
error outcomes of the service as well as the endpoint's own rejection
paths — the state after the request is exactly the state before it, so
no partial record is ever appended. -/
theorem C7_history_unchanged_on_failure (st : AppState) (key : Option String)
    (reqBody : Option (List (String × Json))) (uid : Option String) (now : Int)
    (net : NetOutcome) (status : Nat) (msg : String)
    (h : (classify_objective st key reqBody uid now net).1 = HttpResp.err status msg) :
    (classify_objective st key reqBody uid now net).2 = st := by
  cases hkm : keyMissing key with
  | true => simp [classify_objective, hkm]
  | false =>
    cases hans : answerOf reqBody with
    | none => simp [classify_objective, hkm, hans]
    | some objective =>
      cases hres : classify_learning_objective objective GEMINI_API_URL (key.getD "")
          st.current_question (existing_categories_of st.user_responses) net with
      | error e => simp [classify_objective, hkm, hans, hres]
      | ok r =>
        exfalso
        simp [classify_objective, hkm, hans, hres] at h

theorem C7_history_unchanged_on_failure_witness :
    (classify_objective { user_responses := [], current_question := "Q" } (some "k")
        (some [("answer", Json.str "hello")]) none 0
        (NetOutcome.response 200 (some EMPTY_TEXT_BODY))).1 =
      HttpResp.err 500 "AI classification failed due to internal schema mismatch." ∧
    (classify_objective { user_responses := [], current_question := "Q" } (some "k")
        (some [("answer", Json.str "hello")]) none 0
        (NetOutcome.response 200 (some EMPTY_TEXT_BODY))).2 =
      { user_responses := [], current_question := "Q" } :=
  ⟨by decide,
    C7_history_unchanged_on_failure { user_responses := [], current_question := "Q" }
      (some "k") (some [("answer", Json.str "hello")]) none 0
      (NetOutcome.response 200 (some EMPTY_TEXT_BODY)) 500
      "AI classification failed due to internal schema mismatch." (by decide)⟩

/-- C9. An LLM response whose extracted text is exactly the two-brace
string is treated identically to an absent or empty text field: the
client raises the empty-output error (RuntimeError MSG_EMPTY) rather
than passing the field-less JSON object on to the Result Validator. -/
theorem C9_braces_text_treated_as_empty (a api_url api_key q : String)
    (cats : List String) (status : Nat) (body body2 : Json)
    (hstatus : status < 400)
    (hb : extractedTextIs body "\x7b\x7d" = true)
    (hb2 : extractedTextIs body2 "" = true) :
    classify_learning_objective (Json.str a) api_url api_key q cats
        (NetOutcome.response status (some body)) =
      Except.error (PyExc.runtimeError MSG_EMPTY) ∧
    classify_learning_objective (Json.str a) api_url api_key q cats
        (NetOutcome.response status (some body2)) =
      Except.error (PyExc.runtimeError MSG_EMPTY) := by
  have h1 := extractedTextIs_spec body _ hb
  have h2 := extractedTextIs_spec body2 _ hb2
  have hif : ¬(400 ≤ status ∧ status ≤ 599) := by omega
  constructor
  · unfold classify_learning_objective
    simp [hif, h1, jsonFalsy, jsonEqStr]
    rfl
  · unfold classify_learning_objective
    simp [hif, h2, jsonFalsy, jsonEqStr]
    rfl

/-- A provider envelope with no text field at all: every lookup in the
extraction chain falls back to its default, ending at the two-brace
default text. -/
def TEXT_ABSENT_BODY : Json := .obj [("candidates", .arr [.obj []])]

theorem C9_braces_text_treated_as_empty_witness :
    (200 : Nat) < 400 ∧
    extractedTextIs TEXT_ABSENT_BODY "\x7b\x7d" = true ∧
    extractedTextIs EMPTY_TEXT_BODY "" = true ∧
    (classify_learning_objective (Json.str "hello") GEMINI_API_URL "k" "Q" ["Oncology"]
        (NetOutcome.response 200 (some TEXT_ABSENT_BODY)) =
      Except.error (PyExc.runtimeError MSG_EMPTY) ∧
     classify_learning_objective (Json.str "hello") GEMINI_API_URL "k" "Q" ["Oncology"]
        (NetOutcome.response 200 (some EMPTY_TEXT_BODY)) =
      Except.error (PyExc.runtimeError MSG_EMPTY)) :=
  ⟨by decide, by decide, by decide,
    C9_braces_text_treated_as_empty "hello" GEMINI_API_URL "k" "Q" ["Oncology"] 200
      TEXT_ABSENT_BODY EMPTY_TEXT_BODY (by decide) (by decide) (by decide)⟩
